import Mathlib

/-!
Verification of the Roach Reports backend core
(`src/backend/index.js` together with `src/database/schema.sql`):
the nearby-buildings bounding-box query, the report-statistics
aggregation, the report-insertion severity rule and the
create-building-by-address idempotency.

JavaScript numbers are embedded as exact rationals (`ℚ`) where the code
does only field arithmetic and comparisons, and as reals (`ℝ`) where the
code calls the transcendental `Math.cos`.  `Math.round x` is embedded as
`⌊x + 1/2⌋`, which agrees with JavaScript semantics (round half toward
positive infinity) on every rational.
-/

namespace RoachReports

/-- `Math.round` in JavaScript: rounds to the nearest integer, half-way
cases toward positive infinity, i.e. `⌊x + 1/2⌋`. -/
def jsRound (q : ℚ) : ℤ := ⌊q + 1/2⌋

/-! ## Data model

Rows as fetched from the store (`src/database/schema.sql`).  Coordinates
are nullable (`latitude decimal, longitude decimal` with no NOT NULL),
severity is a nullable integer with a CHECK constraint. -/

/-- A row of the `buildings` table, generic in the number type used for
coordinates (`ℚ` for decidable reasoning, `ℝ` when combined with the
`Math.cos` degree conversion). -/
structure Building (α : Type) where
  id : String
  address : String
  city : String
  state : String
  zip : Option String
  latitude : Option α
  longitude : Option α
deriving DecidableEq

/-- A row of the `reports` table, as selected by the building endpoints
(`id, has_roaches, severity, created_at` plus optional unit/notes). -/
structure Report where
  id : String
  unit_number : Option String
  has_roaches : Bool
  severity : Option ℤ
  notes : Option String
  created_at : ℤ
deriving DecidableEq

/-! ## ReportStatsAggregator (`src/backend/index.js` lines 142-157) -/

/-- The derived stats block attached to a `GET /buildings/:id` response. -/
structure BuildingStats where
  totalReports : ℕ
  positiveReports : ℕ
  percentPositive : ℤ
  avgSeverity : ℚ
deriving DecidableEq

/-- `r.severity || 0`: a null severity contributes 0. -/
def severityOrZero (r : Report) : ℚ := ((r.severity.getD 0 : ℤ) : ℚ)

/-- The stats computation of `GET /buildings/:id`:

```js
const totalReports = reports.length;
const positiveReports = reports.filter(r => r.has_roaches).length;
const avgSeverity = totalReports > 0
  ? reports.reduce((sum, r) => sum + (r.severity || 0), 0) / totalReports
  : 0;
... {
  totalReports,
  positiveReports,
  percentPositive: totalReports > 0 ? Math.round((positiveReports / totalReports) * 100) : 0,
  avgSeverity: Math.round(avgSeverity * 10) / 10
}
```
-/
def reportStats (reports : List Report) : BuildingStats :=
  let totalReports := reports.length
  let positiveReports := (reports.filter (fun r => r.has_roaches)).length
  let avgSeverity : ℚ :=
    if totalReports > 0 then
      (reports.foldl (fun sum r => sum + severityOrZero r) 0) / (totalReports : ℚ)
    else 0
  { totalReports := totalReports
    positiveReports := positiveReports
    percentPositive :=
      if totalReports > 0 then jsRound (((positiveReports : ℚ) / (totalReports : ℚ)) * 100) else 0
    avgSeverity := ((jsRound (avgSeverity * 10) : ℤ) : ℚ) / 10 }

/-- The `reduce` over reports is the sum of the null-coalesced severities. -/
theorem foldl_severity_eq_sum (reports : List Report) (init : ℚ) :
    reports.foldl (fun sum r => sum + severityOrZero r) init =
      init + (reports.map severityOrZero).sum := by
  induction reports generalizing init with
  | nil => simp
  | cons r rs ih =>
      simp only [List.foldl_cons, List.map_cons, List.sum_cons, ih]
      ring

/-- Sample report: positive sighting with a null severity (Scenario B). -/
def repPosNull : Report :=
  { id := "r1", unit_number := none, has_roaches := true, severity := none,
    notes := none, created_at := 0 }

/-- Sample report: positive sighting with severity 3. -/
def repPos3 : Report :=
  { id := "r2", unit_number := none, has_roaches := true, severity := some 3,
    notes := none, created_at := 0 }

/-- Sample report: negative sighting, severity null. -/
def repNeg : Report :=
  { id := "r3", unit_number := none, has_roaches := false, severity := none,
    notes := none, created_at := 0 }

/-- C2: for a non-empty report sequence, `avgSeverity` equals
`round((sum of severities, null contributing 0) / totalReports * 10) / 10`
(nulls count in the denominator); on the empty sequence `avgSeverity` is 0;
and the single report `{has_roaches: true, severity: null}` yields stats
`{totalReports: 1, positiveReports: 1, percentPositive: 100, avgSeverity: 0}`. -/
theorem avgSeverity_formula (rs : List Report) (h : 0 < rs.length) :
    (reportStats rs).avgSeverity =
      ((jsRound (((rs.map severityOrZero).sum / (rs.length : ℚ)) * 10) : ℤ) : ℚ) / 10
    ∧ (reportStats []).avgSeverity = 0
    ∧ reportStats [repPosNull] =
      { totalReports := 1, positiveReports := 1, percentPositive := 100, avgSeverity := 0 } := by
  refine ⟨?_, by norm_num [reportStats, jsRound], ?_⟩
  · simp only [reportStats, foldl_severity_eq_sum, zero_add, if_pos h]
  · norm_num [reportStats, severityOrZero, repPosNull, jsRound]

/-- Witness for C2 at the two-report sequence [severity 3 positive, negative]. -/
theorem avgSeverity_formula_witness :
    0 < ([repPos3, repNeg] : List Report).length ∧
    ((reportStats [repPos3, repNeg]).avgSeverity =
      ((jsRound ((([repPos3, repNeg].map severityOrZero).sum /
          (([repPos3, repNeg] : List Report).length : ℚ)) * 10) : ℤ) : ℚ) / 10
    ∧ (reportStats []).avgSeverity = 0
    ∧ reportStats [repPosNull] =
      { totalReports := 1, positiveReports := 1, percentPositive := 100, avgSeverity := 0 }) :=
  ⟨by decide, avgSeverity_formula [repPos3, repNeg] (by decide)⟩

/-- C5: for a non-empty sequence, `percentPositive` is the half-up rounding of
`positiveReports / totalReports * 100`, where `positiveReports` counts the
reports with `has_roaches` true and `totalReports` is the length; on the empty
sequence all four stats fields are 0. -/
theorem percentPositive_formula (rs : List Report) (h : 0 < rs.length) :
    (reportStats rs).percentPositive =
      jsRound (((rs.countP (fun r => r.has_roaches) : ℚ) / (rs.length : ℚ)) * 100)
    ∧ (reportStats rs).positiveReports = rs.countP (fun r => r.has_roaches)
    ∧ (reportStats rs).totalReports = rs.length
    ∧ reportStats [] =
      { totalReports := 0, positiveReports := 0, percentPositive := 0, avgSeverity := 0 } := by
  refine ⟨?_, ?_, rfl, by norm_num [reportStats, jsRound]⟩
  · simp only [reportStats, if_pos h, List.countP_eq_length_filter]
  · simp only [reportStats, List.countP_eq_length_filter]

/-- Witness for C5 at the two-report sequence [positive, negative]. -/
theorem percentPositive_formula_witness :
    0 < ([repPos3, repNeg] : List Report).length ∧
    ((reportStats [repPos3, repNeg]).percentPositive =
      jsRound ((((([repPos3, repNeg] : List Report).countP (fun r => r.has_roaches)) : ℚ) /
        (([repPos3, repNeg] : List Report).length : ℚ)) * 100)
    ∧ (reportStats [repPos3, repNeg]).positiveReports =
        ([repPos3, repNeg] : List Report).countP (fun r => r.has_roaches)
    ∧ (reportStats [repPos3, repNeg]).totalReports = ([repPos3, repNeg] : List Report).length
    ∧ reportStats [] =
      { totalReports := 0, positiveReports := 0, percentPositive := 0, avgSeverity := 0 }) :=
  ⟨by decide, percentPositive_formula [repPos3, repNeg] (by decide)⟩

/-- C6: the stats computation is invariant under permutation of the report
sequence — every permutation yields identical values of all four fields. -/
theorem reportStats_perm_invariant (rs rs' : List Report) (h : rs.Perm rs') :
    reportStats rs = reportStats rs' := by
  have hlen : rs.length = rs'.length := h.length_eq
  have hfilt : (rs.filter (fun r => r.has_roaches)).length =
      (rs'.filter (fun r => r.has_roaches)).length := (h.filter _).length_eq
  have hsum : (rs.map severityOrZero).sum = (rs'.map severityOrZero).sum :=
    (h.map severityOrZero).sum_eq
  simp only [reportStats, foldl_severity_eq_sum, zero_add, hlen, hfilt, hsum]

/-- Witness for C6: a concrete three-report sequence and a rearrangement. -/
theorem reportStats_perm_invariant_witness :
    ([repPos3, repNeg, repPosNull] : List Report).Perm [repPosNull, repPos3, repNeg] ∧
    reportStats [repPos3, repNeg, repPosNull] = reportStats [repPosNull, repPos3, repNeg] :=
  ⟨by decide, reportStats_perm_invariant _ _ (by decide)⟩

/-! ## GeoBoundingBoxFilter (`src/backend/index.js` lines 91-116)

The handler turns the radius into degree deltas and issues a range query
`.gte('latitude', lat - latDelta).lte('latitude', lat + latDelta)
 .gte('longitude', lng - lngDelta).lte('longitude', lng + lngDelta)
 .limit(100)` against the store.  A SQL comparison on a NULL column is not
true, so rows with a null coordinate never satisfy `gte`/`lte`. -/

/-- `.gte(column, bound)` on a nullable column: a NULL value fails the
comparison (SQL three-valued logic). -/
def colGte {α : Type} [LinearOrder α] (v : Option α) (bound : α) : Bool :=
  match v with
  | none => false
  | some x => decide (bound ≤ x)

/-- `.lte(column, bound)` on a nullable column: a NULL value fails the
comparison (SQL three-valued logic). -/
def colLte {α : Type} [LinearOrder α] (v : Option α) (bound : α) : Bool :=
  match v with
  | none => false
  | some x => decide (x ≤ bound)

/-- The conjunction of the four range conditions of the nearby query. -/
def matchesBox {α : Type} [LinearOrder α] (latMin latMax lngMin lngMax : α)
    (b : Building α) : Bool :=
  colGte b.latitude latMin && colLte b.latitude latMax &&
    colGte b.longitude lngMin && colLte b.longitude lngMax

/-- The rows satisfying the four range conditions, before the `limit(100)`. -/
def buildingsInBox {α : Type} [LinearOrder α] (latMin latMax lngMin lngMax : α)
    (store : List (Building α)) : List (Building α) :=
  store.filter (matchesBox latMin latMax lngMin lngMax)

/-- The full nearby query: the box filter around the center followed by
`limit(100)`. -/
def nearbyQuery {α : Type} [LinearOrder α] [Add α] [Sub α]
    (centerLat centerLng latDelta lngDelta : α)
    (store : List (Building α)) : List (Building α) :=
  (buildingsInBox (centerLat - latDelta) (centerLat + latDelta)
    (centerLng - lngDelta) (centerLng + lngDelta) store).take 100

/-- A building matches the box iff both coordinates are present and lie
within the bounds. -/
theorem matchesBox_iff {α : Type} [LinearOrder α] (latMin latMax lngMin lngMax : α)
    (b : Building α) :
    matchesBox latMin latMax lngMin lngMax b = true ↔
      ∃ la lo, b.latitude = some la ∧ b.longitude = some lo ∧
        latMin ≤ la ∧ la ≤ latMax ∧ lngMin ≤ lo ∧ lo ≤ lngMax := by
  rcases b with ⟨id, addr, c, s, z, la, lo⟩
  cases la <;> cases lo <;>
    simp [matchesBox, colGte, colLte, and_assoc]

/-- The response type of `GET /buildings/nearby`: either the 400
`InvalidArgument` body or the 200 list of buildings. -/
inductive NearbyResult where
  | invalidArgument (error : String)
  | ok (data : List (Building ℝ))

/-- The `GET /buildings/nearby` handler:

```js
const { lat, lng, radius = 1000 } = req.query;
if (!lat || !lng) {
  return res.status(400).json({ error: 'lat and lng are required' });
}
const latDelta = parseFloat(radius) / 111000;
const lngDelta = parseFloat(radius) / (111000 * Math.cos(parseFloat(lat) * Math.PI / 180));
```

followed by the range query `nearbyQuery`.  Query parameters are `Option ℝ`
(absent = `none`); the destructuring default applies 1000 when `radius` is
omitted. -/
noncomputable def nearbyHandler (lat lng radius : Option ℝ)
    (store : List (Building ℝ)) : NearbyResult :=
  match lat, lng with
  | none, _ => .invalidArgument "lat and lng are required"
  | some _, none => .invalidArgument "lat and lng are required"
  | some la, some ln =>
    let r := radius.getD 1000
    let latDelta := r / 111000
    let lngDelta := r / (111000 * Real.cos (la * Real.pi / 180))
    .ok (nearbyQuery la ln latDelta lngDelta store)

/-- A sample building with both coordinates null. -/
def bldgNoCoords : Building ℝ :=
  { id := "b0", address := "1 Unknown Pl", city := "New York", state := "NY",
    zip := none, latitude := none, longitude := none }

/-- C3: a building is included by the nearby box filter iff it is a
candidate, both its coordinates are present, and they lie within
`center ± delta` on each axis; and every building in the capped query
result has both coordinates non-null (null coordinates are excluded,
never erroring). -/
theorem nearby_filter_mem_iff (centerLat centerLng latDelta lngDelta : ℝ)
    (store : List (Building ℝ)) (b : Building ℝ) :
    (b ∈ buildingsInBox (centerLat - latDelta) (centerLat + latDelta)
        (centerLng - lngDelta) (centerLng + lngDelta) store ↔
      b ∈ store ∧ ∃ la lo, b.latitude = some la ∧ b.longitude = some lo ∧
        centerLat - latDelta ≤ la ∧ la ≤ centerLat + latDelta ∧
        centerLng - lngDelta ≤ lo ∧ lo ≤ centerLng + lngDelta)
    ∧ (b ∈ nearbyQuery centerLat centerLng latDelta lngDelta store →
        b.latitude ≠ none ∧ b.longitude ≠ none) := by
  constructor
  · rw [buildingsInBox, List.mem_filter, matchesBox_iff]
  · intro hmem
    have hbox : b ∈ buildingsInBox (centerLat - latDelta) (centerLat + latDelta)
        (centerLng - lngDelta) (centerLng + lngDelta) store :=
      List.mem_of_mem_take hmem
    rw [buildingsInBox, List.mem_filter, matchesBox_iff] at hbox
    obtain ⟨-, la, lo, hla, hlo, -⟩ := hbox
    exact ⟨by simp [hla], by simp [hlo]⟩

/-- Witness for C3 at a concrete center, box and candidate. -/
theorem nearby_filter_mem_iff_witness :
    ((bldgNoCoords ∈ buildingsInBox ((0 : ℝ) - 1) (0 + 1) (0 - 1) (0 + 1) [bldgNoCoords] ↔
      bldgNoCoords ∈ [bldgNoCoords] ∧
        ∃ la lo, bldgNoCoords.latitude = some la ∧ bldgNoCoords.longitude = some lo ∧
          (0 : ℝ) - 1 ≤ la ∧ la ≤ 0 + 1 ∧ (0 : ℝ) - 1 ≤ lo ∧ lo ≤ 0 + 1)
    ∧ (bldgNoCoords ∈ nearbyQuery (0 : ℝ) 0 1 1 [bldgNoCoords] →
        bldgNoCoords.latitude ≠ none ∧ bldgNoCoords.longitude ≠ none)) :=
  nearby_filter_mem_iff 0 0 1 1 [bldgNoCoords] bldgNoCoords

/-- C4: with both coordinates supplied, the handler queries the box built
from exactly `latDelta = radius / 111000` and
`lngDelta = radius / (111000 * cos(centerLat * π / 180))`. -/
theorem nearby_degree_conversion (la ln r : ℝ) (store : List (Building ℝ)) :
    nearbyHandler (some la) (some ln) (some r) store =
      NearbyResult.ok (nearbyQuery la ln (r / 111000)
        (r / (111000 * Real.cos (la * Real.pi / 180))) store) := rfl

/-- C8: a nearby query with both coordinates present always answers with an
`ok` list (never an error) of at most 100 buildings. -/
theorem nearby_result_capped (la ln : ℝ) (radius : Option ℝ)
    (store : List (Building ℝ)) :
    ∃ bs, nearbyHandler (some la) (some ln) radius store = NearbyResult.ok bs ∧
      bs.length ≤ 100 := by
  refine ⟨_, rfl, ?_⟩
  simp only [nearbyQuery]
  exact List.length_take_le 100 _

/-- C1 is violated by the code: at center latitude 89.95 (radius 1000) the
handler performs no pole guard — it answers `ok` from the bounding-box
query instead of `InvalidArgument`; the cosine in the `lngDelta`
denominator is still strictly positive there, so the computed box is
finite. -/
theorem nearby_pole_not_guarded (store : List (Building ℝ)) :
    (∃ bs, nearbyHandler (some 89.95) (some 0) (some 1000) store = NearbyResult.ok bs)
    ∧ 0 < Real.cos ((89.95 : ℝ) * Real.pi / 180) := by
  refine ⟨⟨_, rfl⟩, ?_⟩
  have hpi := Real.pi_pos
  apply Real.cos_pos_of_mem_Ioo
  constructor
  · have : (0 : ℝ) < 89.95 * Real.pi / 180 := by positivity
    linarith
  · show (89.95 : ℝ) * Real.pi / 180 < Real.pi / 2
    linarith

/-- C9: when `lat` or `lng` is absent the handler answers the 400 body
`{error: "lat and lng are required"}` for every store (the result does not
depend on the store, so no query is needed); and an omitted `radius`
behaves exactly as `radius = 1000`. -/
theorem nearby_missing_args (lat lng radius : Option ℝ) (store : List (Building ℝ))
    (h : lat = none ∨ lng = none) :
    nearbyHandler lat lng radius store =
      NearbyResult.invalidArgument "lat and lng are required"
    ∧ ∀ la ln : ℝ, nearbyHandler (some la) (some ln) none store =
        nearbyHandler (some la) (some ln) (some 1000) store := by
  refine ⟨?_, fun la ln => rfl⟩
  rcases h with h | h
  · subst h; rfl
  · subst h; cases lat <;> rfl

/-- Witness for C9: a request with `lng` missing. -/
theorem nearby_missing_args_witness :
    ((some (40.7 : ℝ)) = none ∨ (none : Option ℝ) = none) ∧
    (nearbyHandler (some (40.7 : ℝ)) none none [] =
      NearbyResult.invalidArgument "lat and lng are required"
    ∧ ∀ la ln : ℝ, nearbyHandler (some la) (some ln) none [] =
        nearbyHandler (some la) (some ln) (some 1000) []) :=
  ⟨Or.inr rfl, nearby_missing_args (some 40.7) none none [] (Or.inr rfl)⟩

/-! ## POST /reports severity rule (`src/backend/index.js` lines 282-298,
`src/database/schema.sql` lines 17-25) -/

/-- The row `POST /reports` sends to the `reports` insert. -/
structure ReportInsertRow where
  building_id : String
  unit_number : Option String
  has_roaches : Bool
  severity : Option ℤ
  notes : Option String
deriving DecidableEq

/-- Builds the inserted row; the severity field is
`has_roaches ? severity : null`. -/
def insertedReportRow (building_id : String) (unit_number : Option String)
    (has_roaches : Bool) (severity : Option ℤ) (notes : Option String) :
    ReportInsertRow :=
  { building_id := building_id
    unit_number := unit_number
    has_roaches := has_roaches
    severity := if has_roaches then severity else none
    notes := notes }

/-- The `reports` table constraint `severity int CHECK (severity >= 1 AND
severity <= 5)`: a NULL severity satisfies the CHECK, a non-null one must
lie in [1,5]; a row is persisted only when this holds. -/
def severityCheckOk (s : Option ℤ) : Prop := ∀ x, s = some x → 1 ≤ x ∧ x ≤ 5

/-- C7: the stored severity is the submitted one when `has_roaches` is true
and null otherwise, regardless of the submitted severity; hence every row
that the CHECK constraint lets through has severity null when `has_roaches`
is false, and otherwise null or in [1,5]. -/
theorem report_severity_invariant (bid : String) (u : Option String) (hr : Bool)
    (sev : Option ℤ) (n : Option String) :
    ((insertedReportRow bid u hr sev n).severity = if hr then sev else none)
    ∧ (hr = false → (insertedReportRow bid u hr sev n).severity = none)
    ∧ ((insertedReportRow bid u hr sev n).has_roaches = false →
        (insertedReportRow bid u hr sev n).severity = none)
    ∧ (severityCheckOk (insertedReportRow bid u hr sev n).severity →
        (insertedReportRow bid u hr sev n).severity = none ∨
        ∃ x, (insertedReportRow bid u hr sev n).severity = some x ∧ 1 ≤ x ∧ x ≤ 5) := by
  refine ⟨rfl, ?_, ?_, ?_⟩
  · intro h; simp [insertedReportRow, h]
  · intro h; simp only [insertedReportRow] at h ⊢; simp [h]
  · intro hc
    cases hs : (insertedReportRow bid u hr sev n).severity with
    | none => exact Or.inl rfl
    | some x => exact Or.inr ⟨x, rfl, hc x hs⟩

/-- Witness for C7: a negative report submitted with a stray severity 9 is
stored with severity null. -/
theorem report_severity_invariant_witness :
    ((insertedReportRow "b1" none false (some 9) none).severity =
        if false then some 9 else none)
    ∧ (false = false → (insertedReportRow "b1" none false (some 9) none).severity = none)
    ∧ ((insertedReportRow "b1" none false (some 9) none).has_roaches = false →
        (insertedReportRow "b1" none false (some 9) none).severity = none)
    ∧ (severityCheckOk (insertedReportRow "b1" none false (some 9) none).severity →
        (insertedReportRow "b1" none false (some 9) none).severity = none ∨
        ∃ x, (insertedReportRow "b1" none false (some 9) none).severity = some x ∧
          1 ≤ x ∧ x ≤ 5) :=
  report_severity_invariant "b1" none false (some 9) none

/-! ## POST /buildings (`src/backend/index.js` lines 161-199) -/

/-- The store's `ILIKE` match of a column value against the submitted
address used as the pattern.  Modelled from the spec: the external store's
`ilike(column, address)` is a case-insensitive address match (SQL wildcard
characters in the pattern aside, which the handler never escapes). -/
def ilikeMatch (pattern s : String) : Bool := s.toLower == pattern.toLower

/-- JavaScript falsiness of an optional numeric field: absent or zero. -/
def jsFalsyNum (v : Option ℚ) : Bool := v.isNone || v == some 0

/-- The response of `POST /buildings`: the 400 body, the 200 echo of an
existing row, or the 201 freshly inserted row. -/
inductive PostBuildingResult where
  | invalidArgument (error : String)
  | ok (b : Building ℚ)
  | created (b : Building ℚ)
deriving DecidableEq

/-- The `POST /buildings` handler as a function of the current `buildings`
table (in store order), the id the store would assign to a new row, the
request body, and the geocoder's answer (an external collaborator,
consulted only on the create path when a coordinate is missing/falsy).
Returns the response and the table after the request:

```js
const { address, city = 'New York', state = 'NY', zip, latitude, longitude } = req.body;
if (!address) return 400;
existing = select * from buildings where address ilike <address> limit 1;
if (existing.length > 0) return existing[0];
let finalLat = latitude, finalLng = longitude;
if (!finalLat || !finalLng) { coords = geocode(address); if (coords) {...} }
insert { address, city, state, zip, latitude: finalLat, longitude: finalLng }
```
-/
def postBuilding (store : List (Building ℚ)) (newId : String)
    (address : Option String) (city state zip : Option String)
    (latitude longitude : Option ℚ) (geocoded : Option (ℚ × ℚ)) :
    PostBuildingResult × List (Building ℚ) :=
  match address with
  | none => (.invalidArgument "address is required", store)
  | some addr =>
    if addr = "" then (.invalidArgument "address is required", store)
    else
      match store.find? (fun b => ilikeMatch addr b.address) with
      | some b => (.ok b, store)
      | none =>
        let final : Option ℚ × Option ℚ :=
          if jsFalsyNum latitude || jsFalsyNum longitude then
            match geocoded with
            | some g => (some g.1, some g.2)
            | none => (latitude, longitude)
          else (latitude, longitude)
        let row : Building ℚ :=
          { id := newId, address := addr, city := city.getD "New York",
            state := state.getD "NY", zip := zip,
            latitude := final.1, longitude := final.2 }
        (.created row, store ++ [row])

/-- A string always `ILIKE`-matches itself. -/
theorem ilikeMatch_self (s : String) : ilikeMatch s s = true := by
  simp [ilikeMatch]

/-- C10: when some stored building's address case-insensitively matches the
submitted address, `POST /buildings` answers with such a stored building and
leaves the table unchanged; consequently posting the same address twice
never changes the table after the first request (creation by address is
idempotent). -/
theorem postBuilding_idempotent (store : List (Building ℚ)) (id1 id2 addr : String)
    (c st z : Option String) (la lo : Option ℚ) (g : Option (ℚ × ℚ))
    (c2 st2 z2 : Option String) (la2 lo2 : Option ℚ) (g2 : Option (ℚ × ℚ))
    (haddr : addr ≠ "") :
    ((∃ b ∈ store, ilikeMatch addr b.address = true) →
      ∃ b ∈ store, ilikeMatch addr b.address = true ∧
        postBuilding store id1 (some addr) c st z la lo g = (.ok b, store))
    ∧ (postBuilding (postBuilding store id1 (some addr) c st z la lo g).2 id2
        (some addr) c2 st2 z2 la2 lo2 g2).2 =
      (postBuilding store id1 (some addr) c st z la lo g).2 := by
  constructor
  · intro h
    have hsome : (store.find? (fun b => ilikeMatch addr b.address)).isSome :=
      List.find?_isSome.mpr h
    obtain ⟨b, hb⟩ := Option.isSome_iff_exists.mp hsome
    have hpb : ilikeMatch addr b.address = true := by
      have := List.find?_some hb
      simpa using this
    exact ⟨b, List.mem_of_find?_eq_some hb, hpb,
      by simp [postBuilding, haddr, hb]⟩
  · cases hf : store.find? (fun b => ilikeMatch addr b.address) with
    | some b => simp [postBuilding, haddr, hf]
    | none =>
        simp only [postBuilding, if_neg haddr, hf]
        rw [List.find?_append, hf, Option.none_or]
        simp [List.find?, ilikeMatch_self]

/-- Witness for C10: posting a fresh address to an empty table twice inserts
exactly one row. -/
theorem postBuilding_idempotent_witness :
    ((∃ b ∈ ([] : List (Building ℚ)), ilikeMatch "123 Main St" b.address = true) →
      ∃ b ∈ ([] : List (Building ℚ)), ilikeMatch "123 Main St" b.address = true ∧
        postBuilding [] "i1" (some "123 Main St") none none none none none none =
          (.ok b, []))
    ∧ (postBuilding
        (postBuilding [] "i1" (some "123 Main St") none none none none none none).2
        "i2" (some "123 Main St") none none none none none none).2 =
      (postBuilding [] "i1" (some "123 Main St") none none none none none none).2 :=
  postBuilding_idempotent [] "i1" "i2" "123 Main St" none none none none none none
    none none none none none none (by decide)

end RoachReports
